import Mathlib

/-!
Verification of the ChresoTutVid role-gated content portal.

This file gives a shallow embedding, in Lean 4, of the role/session core of
the repository: the SUDO runtime guard (src/Chresotutrepo/src/lib/sudoGuard.ts),
the feature-flag registry (featureFlags.ts), the sign-up / sign-in flows
(src/src/views/LoginPage.tsx and the useAuth provider bundled with it),
the route guards (RBACGuard and ProtectedRoute), the row-level-security
policies of supabase/schema.sql together with the v2 auth migration, and the
audit emitters (src/src/lib/supabase.ts logAction and
src/Chresotutrepo/src/lib/authEventLog.ts logAuthEvent).

Each definition is translated directly from the named source location.
Roles are modelled as the strings the TypeScript code compares against;
e-mail strings are modelled as lists of characters so that the JavaScript
toLowerCase/trim normalisation is fully executable.
-/

namespace ChresoTut

/-! ## JavaScript string helpers

The sudo guard compares e-mails with `userEmail.toLowerCase().trim()`.
We model a JS string as a `List Char`; `jsToLower` is String.prototype
.toLowerCase (per-character lowering) and `jsTrim` is String.prototype.trim
(dropping leading and trailing whitespace). -/

/-- JavaScript `s.toLowerCase()` on a string modelled as a character list. -/
def jsToLower (s : List Char) : List Char :=
  s.map Char.toLower

/-- JavaScript `s.trim()`: drop leading and trailing whitespace. -/
def jsTrim (s : List Char) : List Char :=
  ((s.dropWhile Char.isWhitespace).reverse.dropWhile Char.isWhitespace).reverse

/-- The normalisation applied on both sides of the sudo e-mail comparison in
`isSudoSession`: `toLowerCase()` followed by `trim()`. -/
def normEmail (s : List Char) : List Char :=
  jsTrim (jsToLower s)

/-- JavaScript falsiness of a `string | null | undefined` value: `null`,
`undefined` and the empty string are falsy. -/
def emailFalsy : Option (List Char) → Bool
  | none => true
  | some s => s.isEmpty

/-! ## sudoGuard.ts (src/Chresotutrepo/src/lib/sudoGuard.ts) -/

/-- SUDO role identifier (sudoGuard.ts line 18). -/
def SUDO_ROLE : String := "SUDO"

/-- Roles that can be persisted to the database (sudoGuard.ts line 21). -/
def PERSISTABLE_ROLES : List String := ["STAFF", "STUDENT", "ADMIN"]

/-- isRolePersistable (sudoGuard.ts lines 32-35): `if (!role) return false;`
then membership in PERSISTABLE_ROLES.  The falsy guard also rejects the
empty string. -/
def isRolePersistable : Option String → Bool
  | none => false
  | some r => if r = "" then false else PERSISTABLE_ROLES.contains r

/-- Result of a guard that may throw: `ok` models normal return, `blocked`
models the thrown `Error` with its message. -/
inductive GuardResult where
  | ok : GuardResult
  | blocked (msg : String) : GuardResult
deriving DecidableEq

/-- assertNotSudoForPersistence (sudoGuard.ts lines 45-62): throws exactly
when the candidate role is the SUDO string, otherwise returns normally. -/
def assertNotSudoForPersistence (role : Option String) (context : String) :
    GuardResult :=
  if role = some SUDO_ROLE then
    GuardResult.blocked "SUDO role cannot be persisted to database"
  else
    GuardResult.ok

/-- sanitizeRoleForPersistence (sudoGuard.ts lines 68-78): null stays null
(the `if (!role)` falsy guard also maps the empty string to null), SUDO is
mapped to null, a persistable role is returned unchanged, anything else is
mapped to null. -/
def sanitizeRoleForPersistence (role : Option String) : Option String :=
  match role with
  | none => none
  | some r =>
    if r = "" then none
    else if r = SUDO_ROLE then none
    else if isRolePersistable (some r) then some r
    else none

/-- The runtime environment seen by isSudoSession: the SUDO_ADMIN feature
flag (FEATURE_FLAGS.SUDO_ADMIN) and the VITE_SUDO_ADMIN_EMAIL environment
value (`undefined` when unset). -/
structure SudoEnv where
  sudoAdminFlag : Bool
  sudoEmail : Option (List Char)

/-- isSudoSession (sudoGuard.ts lines 88-99): false when the feature flag is
off, false when either the configured sudo e-mail or the user e-mail is
falsy (null/undefined/empty), otherwise compares the two e-mails after
lowercasing and trimming both sides. -/
def isSudoSession (env : SudoEnv) (userEmail : Option (List Char)) : Bool :=
  if !env.sudoAdminFlag then false
  else
    match env.sudoEmail, userEmail with
    | some se, some ue =>
      if se.isEmpty || ue.isEmpty then false
      else normEmail ue = normEmail se
    | _, _ => false

/-- getEffectiveRole (sudoGuard.ts lines 106-115): SUDO when isSudoSession
holds, otherwise `dbRole ?? null`. -/
def getEffectiveRole (env : SudoEnv) (dbRole : Option String)
    (userEmail : Option (List Char)) : Option String :=
  if isSudoSession env userEmail then some SUDO_ROLE else dbRole

/-- Modelled from the words of the specification, for comparison with the
code: the condition under which the spec says getEffectiveRole returns SUDO
(sudo feature enabled, an override e-mail configured, and the identity
e-mail equal to the override after lowercasing and trimming both sides). -/
def specSudoCondition (env : SudoEnv) (userEmail : Option (List Char)) : Bool :=
  env.sudoAdminFlag &&
    match env.sudoEmail, userEmail with
    | some se, some ue => !se.isEmpty && (normEmail ue = normEmail se)
    | _, _ => false

/-! ## featureFlags.ts (src/Chresotutrepo/src/lib/featureFlags.ts) -/

/-- The environment (import.meta.env): a partial map from variable names to
string values; `none` models an unset variable. -/
def EnvMap : Type := String → Option String

/-- readEnvFlag (featureFlags.ts lines 80-82): a flag is on exactly when the
environment value is the exact string "true". -/
def readEnvFlag (env : EnvMap) (key : String) : Bool :=
  decide (env key = some "true")

/-- The centralized feature-flag registry (featureFlags.ts lines 94-106). -/
structure FeatureFlagsReg where
  MAGIC_LINK : Bool
  STAFF_DOMAIN_ENFORCEMENT : Bool
  RBAC_V2 : Bool
  SUDO_ADMIN : Bool

/-- FEATURE_FLAGS computed from the environment (featureFlags.ts 94-106). -/
def FEATURE_FLAGS (env : EnvMap) : FeatureFlagsReg :=
  { MAGIC_LINK := readEnvFlag env "VITE_ENABLE_MAGIC_LINK_AUTH"
    STAFF_DOMAIN_ENFORCEMENT := readEnvFlag env "VITE_ENABLE_STAFF_DOMAIN_ENFORCEMENT"
    RBAC_V2 := readEnvFlag env "VITE_ENABLE_ROLE_BASED_ACCESS_V2"
    SUDO_ADMIN := readEnvFlag env "VITE_ENABLE_SUDO_ADMIN" }

/-! ## Sign-up profile insert (useAuth signUp, src/src/views/LoginPage.tsx
lines 425-472) and the database role checks -/

/-- The userData argument of signUp: `{ name, id_number, role }` where the
TypeScript `Role` type is the union STAFF | STUDENT | ADMIN | SUDO. -/
structure UserData where
  name : String
  id_number : String
  role : String

/-- A row sent to `.from('users').insert(...)` (src/src/types.ts UserInsert). -/
structure UserInsert where
  id : String
  id_number : String
  role : String
  name : String
  email : Option String
  is_active : Bool

/-- The profile insert built by signUp (LoginPage.tsx lines 449-456): the
role field is `userData.role`, copied verbatim — no sanitisation and no
sudo-guard call occurs on this path. -/
def signUpUserInsert (authUserId : String) (email : String)
    (userData : UserData) : UserInsert :=
  { id := authUserId
    id_number := userData.id_number
    role := userData.role
    name := userData.name
    email := some email
    is_active := true }

/-- The users_role_check constraint of the base schema (supabase/schema.sql
line 28): role IN ('STAFF', 'STUDENT', 'ADMIN'). -/
def usersRoleCheck (role : String) : Bool :=
  role = "STAFF" || role = "STUDENT" || role = "ADMIN"

/-- The users_role_check constraint after the v2 auth migration (the
migration drops the base constraint and recreates it with SUDO added:
role IN ('STAFF', 'STUDENT', 'ADMIN', 'SUDO')). -/
def usersRoleCheckV2 (role : String) : Bool :=
  role = "STAFF" || role = "STUDENT" || role = "ADMIN" || role = "SUDO"

/-! ## Session states and the sign-in flow (useAuth, LoginPage.tsx) -/

/-- A row of the users table used for profile lookups and the RLS policies. -/
structure UserRow where
  id : String
  role : String
deriving DecidableEq

/-- The session states of the authentication lifecycle. -/
inductive SessionState where
  | anonymous
  | verifiedNoProfile
  | authenticated
deriving DecidableEq

/-- Outcome of supabase.auth.signInWithPassword: success, or an error with
the message surfaced to the caller. -/
inductive AuthResult where
  | ok : AuthResult
  | failed (msg : String) : AuthResult
deriving DecidableEq

/-- The audit events emitted by useAuth.signIn (LoginPage.tsx lines
408-422): logAction('LOGIN', ...) runs exactly when signInWithPassword
returned no error — before, and independently of, profile resolution. -/
def signInEmittedEvents : AuthResult → List String
  | AuthResult.ok => ["LOGIN"]
  | AuthResult.failed _ => []

/-- The session state after a sign-in attempt, per the useAuth provider
(LoginPage.tsx lines 379-405 and 485-494): isAuthenticated is
`!!session && !!user`, so a verified identity without a matching profile row
sits in the verified-no-profile state, and a failed verification leaves the
session anonymous. -/
def stateAfterSignIn (r : AuthResult) (profile : Option UserRow) : SessionState :=
  match r with
  | AuthResult.failed _ => SessionState.anonymous
  | AuthResult.ok =>
    match profile with
    | none => SessionState.verifiedNoProfile
    | some _ => SessionState.authenticated

/-! ## The LoginPage component state (src/src/views/LoginPage.tsx lines
9-104): error message, loading flag, login-attempted flag, the pending
10-second timer, the session/profile visible through useAuth, and the
navigation target chosen by the redirect effects. -/

/-- Error message shown when Supabase auth succeeded but no profile row was
found (LoginPage.tsx line 54). -/
def profileNotFoundMsg : String :=
  "Account not found. Your authentication succeeded but your user profile is not set up. Please contact an administrator."

/-- Fallback error for a rejected credential whose AuthError carries no
message (LoginPage.tsx line 88). -/
def credentialFallbackMsg : String :=
  "Login failed. Please check your credentials."

/-- Error message set by the 10-second login timeout (LoginPage.tsx line
100). -/
def timeoutMsg : String :=
  "Login is taking too long. Your account may not be properly configured. Please contact an administrator."

/-- The client-side state of the LoginPage component together with the
auth-provider state it observes. `timerActive` models a non-null
loginTimeoutRef with a pending (uncancelled) setTimeout. -/
structure LoginState where
  error : String
  isLoading : Bool
  loginAttempted : Bool
  timerActive : Bool
  sessionPresent : Bool
  role : Option String
  navigatedTo : Option String
deriving DecidableEq

/-- The initial LoginPage state (all useState initialisers, LoginPage.tsx
lines 10-16). -/
def loginInit : LoginState :=
  { error := ""
    isLoading := false
    loginAttempted := false
    timerActive := false
    sessionPresent := false
    role := none
    navigatedTo := none }

/-- Events that drive the login flow: handleLogin completing with the
signIn outcome, the auth listener resolving the profile (none when no users
row matches), and the 10-second timer firing. -/
inductive LoginEvent where
  | submit (r : AuthResult)
  | profileResolved (profileRole : Option String)
  | timerFire
deriving DecidableEq

/-- One step of the login flow, from the source:
* submit (handleLogin, lines 80-104): setError(''), setIsLoading(true);
  a signIn error sets the inline error (falling back to the fixed message
  when the AuthError message is empty) and stops loading; on success the
  supabase session exists, loginAttempted is set and the 10-second timeout
  is scheduled.
* profileResolved (auth listener lines 391-402 plus the effects at lines
  27-42 and 46-58): the profile lookup result updates role; when
  loginAttempted holds and identity and profile are both present the
  success effect cancels the timer, stops loading and navigates (ADMIN to
  /admin, others to the saved `from` path); when the identity is present
  but no profile was found the profile-not-found effect cancels the timer
  and shows profileNotFoundMsg.
* timerFire (the setTimeout callback, lines 99-103): only a still-pending
  timer sets timeoutMsg; a cancelled timer never runs. -/
def loginStep (fromPath : String) (s : LoginState) (e : LoginEvent) : LoginState :=
  match e with
  | LoginEvent.submit (AuthResult.failed m) =>
    { s with error := if m = "" then credentialFallbackMsg else m
             isLoading := false }
  | LoginEvent.submit AuthResult.ok =>
    { s with error := ""
             isLoading := true
             sessionPresent := true
             loginAttempted := true
             timerActive := true }
  | LoginEvent.profileResolved p =>
    let s1 := { s with role := p }
    if s1.loginAttempted && s1.sessionPresent && p.isSome then
      { s1 with timerActive := false
                isLoading := false
                navigatedTo :=
                  some (if p = some "ADMIN" then "/admin" else fromPath) }
    else if s1.loginAttempted && s1.sessionPresent && !p.isSome then
      { s1 with timerActive := false
                error := profileNotFoundMsg
                isLoading := false
                loginAttempted := false }
    else s1
  | LoginEvent.timerFire =>
    if s.timerActive then
      { s with error := timeoutMsg
               isLoading := false
               loginAttempted := false
               timerActive := false }
    else s

/-- Apply the timer-fire event n times (the clock advancing past the
original deadline any number of times). -/
def fireTimer (fromPath : String) : Nat → LoginState → LoginState
  | 0, s => s
  | Nat.succ n, s => fireTimer fromPath n (loginStep fromPath s LoginEvent.timerFire)

/-! ## Route guards -/

/-- The decision a route guard renders: a loading placeholder, a redirect
to /login preserving the origin, the guarded children, or a redirect to a
fallback path carrying the accessDenied state flag. -/
inductive GuardDecision where
  | loading
  | redirectLogin
  | render
  | redirectFallback (path : String) (accessDenied : Bool)
deriving DecidableEq

/-- RBACGuard (src/unnamed/part_010 lines 30-83): loading placeholder while
auth is loading; redirect to /login when unauthenticated; when the RBAC v2
flag is disabled, render unconditionally; otherwise null roles are denied,
SUDO always renders, a role contained in allowedRoles renders, ADMIN
renders whenever allowedRoles contains any of STAFF/STUDENT/ADMIN, and
everything else redirects to the fallback path with accessDenied. -/
def rbacGuard (allowedRoles : List String) (fallbackPath : String)
    (isLoading isAuthenticated : Bool) (role : Option String)
    (rbacV2Enabled : Bool) : GuardDecision :=
  if isLoading then GuardDecision.loading
  else if !isAuthenticated then GuardDecision.redirectLogin
  else if !rbacV2Enabled then GuardDecision.render
  else
    match role with
    | none => GuardDecision.redirectFallback fallbackPath true
    | some r =>
      if r = "SUDO" then GuardDecision.render
      else if allowedRoles.contains r then GuardDecision.render
      else if r = "ADMIN" &&
          allowedRoles.any (fun x => x = "STAFF" || x = "STUDENT" || x = "ADMIN") then
        GuardDecision.render
      else GuardDecision.redirectFallback fallbackPath true

/-- ProtectedRoute (the route guard bundled in
src/src/components/ui/LoadingSpinner.tsx lines 68-101): loading placeholder,
redirect to /login when unauthenticated, then — when allowedRoles is given
and non-empty — redirect to /dashboard with accessDenied unless the exact
role is listed; otherwise render. -/
def protectedRoute (allowedRoles : Option (List String))
    (isLoading isAuthenticated : Bool) (role : Option String) : GuardDecision :=
  if isLoading then GuardDecision.loading
  else if !isAuthenticated then GuardDecision.redirectLogin
  else
    match allowedRoles with
    | some rs =>
      if rs.length > 0 then
        match role with
        | none => GuardDecision.redirectFallback "/dashboard" true
        | some r =>
          if rs.contains r then GuardDecision.render
          else GuardDecision.redirectFallback "/dashboard" true
      else GuardDecision.render
    | none => GuardDecision.render

/-! ## Row-level-security policies (supabase/schema.sql lines 79-202 and
the SUDO policies added by the v2 auth migration)

A policy of the form `EXISTS (SELECT 1 FROM public.users WHERE id =
auth.uid() AND <p>)` is modelled by `existsUserWith`: the database is a
list of user rows and auth.uid() is the requesting identity. -/

/-- A tutorials-table row, keeping the field the policies consult. -/
structure TutorialRow where
  target_role : String
deriving DecidableEq

/-- The EXISTS subquery pattern shared by every policy in schema.sql:
there is a users row whose id is auth.uid() and which satisfies p. -/
def existsUserWith (db : List UserRow) (uid : String) (p : UserRow → Bool) : Bool :=
  db.any (fun u => decide (u.id = uid) && p u)

/-- SELECT on tutorials: users_read_role_tutorials (schema.sql lines
139-148, requester is ADMIN or the tutorial's target_role matches the
requester's role) together with the migration's sudo_read_all_tutorials /
sudo_manage_tutorials policies. -/
def tutorialsSelectAllowed (db : List UserRow) (uid : String)
    (t : TutorialRow) : Bool :=
  existsUserWith db uid (fun u => decide (u.role = "ADMIN") || decide (u.role = t.target_role))
    || existsUserWith db uid (fun u => decide (u.role = "SUDO"))

/-- SELECT on a users row: users_read_own (schema.sql lines 84-87),
admins_read_all_users (lines 90-98), and the migration's
sudo_read_all_users. -/
def usersSelectAllowed (db : List UserRow) (uid : String) (row : UserRow) : Bool :=
  decide (row.id = uid)
    || existsUserWith db uid (fun u => decide (u.role = "ADMIN"))
    || existsUserWith db uid (fun u => decide (u.role = "SUDO"))

/-- INSERT on users: admins_insert_users (schema.sql lines 101-109) and the
migration's sudo_insert_users. -/
def usersInsertAllowed (db : List UserRow) (uid : String) : Bool :=
  existsUserWith db uid (fun u => decide (u.role = "ADMIN"))
    || existsUserWith db uid (fun u => decide (u.role = "SUDO"))

/-- UPDATE on users: admins_update_users (schema.sql lines 112-120) and the
migration's sudo_update_users. -/
def usersUpdateAllowed (db : List UserRow) (uid : String) : Bool :=
  existsUserWith db uid (fun u => decide (u.role = "ADMIN"))
    || existsUserWith db uid (fun u => decide (u.role = "SUDO"))

/-- DELETE on a users row: admins_delete_users (schema.sql lines 123-131)
and the migration's sudo_delete_users (which excludes the requester's own
row). -/
def usersDeleteAllowed (db : List UserRow) (uid : String) (row : UserRow) : Bool :=
  existsUserWith db uid (fun u => decide (u.role = "ADMIN"))
    || (existsUserWith db uid (fun u => decide (u.role = "SUDO")) && decide (row.id ≠ uid))

/-! ## Audit emitters: logAction (src/src/lib/supabase.ts lines 45-55) and
logAuthEvent (src/Chresotutrepo/src/lib/authEventLog.ts lines 54-83) -/

/-- Behaviour of the underlying `supabase.rpc('log_action', ...)` append:
it resolves cleanly, resolves with an error result `{ error }`, or rejects
(throws). -/
inductive RpcBehavior where
  | ok
  | errResult (msg : String)
  | throwEx (msg : String)
deriving DecidableEq

/-- What an emitter invocation produces: `propagated` is the error (if any)
that escapes to the caller, `localLog` the console lines written locally. -/
structure EmitResult where
  propagated : Option String
  localLog : List String
deriving DecidableEq

/-- logAction (supabase.ts lines 45-55): an error result is logged to the
console and swallowed; but the function body has no try/catch, so a
rejection of the rpc promise propagates to the awaiting caller. -/
def logAction (b : RpcBehavior) : EmitResult :=
  match b with
  | RpcBehavior.ok => { propagated := none, localLog := [] }
  | RpcBehavior.errResult m =>
    { propagated := none, localLog := ["Error logging action: " ++ m] }
  | RpcBehavior.throwEx m => { propagated := some m, localLog := [] }

/-- logAuthEvent (authEventLog.ts lines 54-83): the event is always
console.info-logged first; the rpc await sits in a try/catch, so a thrown
exception is logged locally and swallowed; an error *result* is neither
checked nor logged, and nothing ever propagates. -/
def logAuthEvent (b : RpcBehavior) : EmitResult :=
  match b with
  | RpcBehavior.ok => { propagated := none, localLog := ["[AuthEvent]"] }
  | RpcBehavior.errResult _ => { propagated := none, localLog := ["[AuthEvent]"] }
  | RpcBehavior.throwEx m =>
    { propagated := none
      localLog := ["[AuthEvent]", "[AuthEvent] Failed to persist log: " ++ m] }

/-- A caller that performs its action (producing `a`) and then awaits
logAction, as signIn/signOut/signUp do: an error propagated by the emitter
rejects the caller's own promise, otherwise the action's outcome is
returned unchanged. -/
def runAudited (a : Nat) (b : RpcBehavior) : Except String Nat :=
  match (logAction b).propagated with
  | some e => Except.error e
  | none => Except.ok a

/-! ## Theorems -/

/-- C1: evaluation of the sign-up write path at the failing input. The
profile insert built by signUp for userData with role SUDO carries the role
string SUDO unchanged (no rejection or downgrade happens before the write),
and while the base schema's users_role_check rejects SUDO, the
users_role_check recreated by the repository's v2 auth migration accepts
it, so the SUDO value is persisted into the Profile's role field. -/
theorem signUp_persists_sudo_after_v2_migration :
    (signUpUserInsert "auth-uid-1" "sudo@chresouniversity.edu.zm"
        { name := "Root", id_number := "ID9", role := "SUDO" }).role = "SUDO"
    ∧ usersRoleCheckV2 "SUDO" = true
    ∧ usersRoleCheck "SUDO" = false := by
  decide

/-- C2: sanitizeRoleForPersistence maps SUDO to null, keeps each of the
three persisted roles unchanged, and maps every other input (including
null) to null; assertNotSudoForPersistence returns normally exactly when
the candidate role is not SUDO. -/
theorem sanitize_and_assert_guard_spec (ro : Option String) (ctx : String) :
    sanitizeRoleForPersistence (some "SUDO") = none
    ∧ (∀ r, r ∈ PERSISTABLE_ROLES → sanitizeRoleForPersistence (some r) = some r)
    ∧ (ro ≠ some "STAFF" → ro ≠ some "STUDENT" → ro ≠ some "ADMIN" →
        sanitizeRoleForPersistence ro = none)
    ∧ (assertNotSudoForPersistence ro ctx = GuardResult.ok ↔ ro ≠ some SUDO_ROLE) := by
  refine ⟨by decide, ?_, ?_, ?_⟩
  · intro r hr
    simp only [PERSISTABLE_ROLES, List.mem_cons, List.mem_singleton] at hr
    rcases hr with rfl | rfl | rfl | hr
    · decide
    · decide
    · decide
    · simp at hr
  · intro h1 h2 h3
    cases ro with
    | none => rfl
    | some r =>
      have hr1 : r ≠ "STAFF" := fun h => h1 (by rw [h])
      have hr2 : r ≠ "STUDENT" := fun h => h2 (by rw [h])
      have hr3 : r ≠ "ADMIN" := fun h => h3 (by rw [h])
      simp [sanitizeRoleForPersistence, isRolePersistable, PERSISTABLE_ROLES,
        hr1, hr2, hr3]
  · unfold assertNotSudoForPersistence
    split_ifs with h
    · simp [h]
    · simp [h]

/-- C2 witness: the theorem applied at the concrete non-role input INTERN
and at the persisted role STAFF. -/
theorem sanitize_and_assert_guard_spec_witness :
    sanitizeRoleForPersistence (some "INTERN") = none
    ∧ sanitizeRoleForPersistence (some "STAFF") = some "STAFF" := by
  refine ⟨?_, ?_⟩
  · exact (sanitize_and_assert_guard_spec (some "INTERN") "ctx").2.2.1
      (by decide) (by decide) (by decide)
  · exact (sanitize_and_assert_guard_spec (some "INTERN") "ctx").2.1 "STAFF" (by decide)

/-- Characterisation of isSudoSession: it holds exactly when the feature
flag is on, both the configured override e-mail and the user e-mail are
present and non-empty, and the two normalise (lowercase, then trim) to the
same string. -/
theorem isSudoSession_true_iff (env : SudoEnv) (ue : Option (List Char)) :
    isSudoSession env ue = true ↔
      env.sudoAdminFlag = true ∧
        ∃ se u, env.sudoEmail = some se ∧ ue = some u ∧ se ≠ [] ∧ u ≠ [] ∧
          normEmail u = normEmail se := by
  obtain ⟨flag, se⟩ := env
  unfold isSudoSession
  cases flag with
  | false => simp
  | true =>
    simp only [Bool.not_true, Bool.false_eq_true, if_false, true_and]
    cases se with
    | none => simp
    | some s =>
      cases ue with
      | none => simp
      | some u =>
        by_cases hs : s.isEmpty <;> by_cases hu : u.isEmpty <;>
          simp_all [List.isEmpty_iff]

/-- C3 counterexample: with the sudo feature enabled and the override
e-mail configured to a whitespace-only string, an identity whose e-mail is
the empty string satisfies the spec's condition (both sides normalise to
the empty string) yet getEffectiveRole does not return SUDO, because the
code first rejects a falsy (empty) user e-mail. -/
theorem effective_role_spec_iff_fails_on_empty_email :
    ¬ (getEffectiveRole ⟨true, some [' ']⟩ (some "STAFF") (some []) = some "SUDO"
        ↔ specSudoCondition ⟨true, some [' ']⟩ (some []) = true) := by
  decide

/-- C3 amended: provided the stored role is not itself the SUDO string,
getEffectiveRole returns SUDO exactly when the sudo feature is enabled, the
override e-mail is configured (present and non-empty), the identity e-mail
is present and non-empty, and the two are equal after lowercasing and
trimming both sides; otherwise it returns the database role unchanged
(null when there is no profile role). -/
theorem effective_role_amended_iff (env : SudoEnv) (dbRole : Option String)
    (ue : Option (List Char)) (hdb : dbRole ≠ some "SUDO") :
    (getEffectiveRole env dbRole ue = some "SUDO" ↔
      env.sudoAdminFlag = true ∧
        ∃ se u, env.sudoEmail = some se ∧ ue = some u ∧ se ≠ [] ∧ u ≠ [] ∧
          normEmail u = normEmail se)
    ∧ (isSudoSession env ue = false → getEffectiveRole env dbRole ue = dbRole) := by
  constructor
  · rw [← isSudoSession_true_iff]
    unfold getEffectiveRole
    cases h : isSudoSession env ue with
    | true => simp [SUDO_ROLE]
    | false =>
      simp only [Bool.false_eq_true, if_false]
      constructor
      · intro hcontra; exact absurd hcontra hdb
      · intro hcontra; exact absurd hcontra (by simp)
  · intro h
    unfold getEffectiveRole
    simp [h]

/-- C3 witness: Scenario C of the specification — override e-mail
root@x.edu, identity e-mail "Root@X.EDU " (mixed case, trailing space) —
yields the SUDO effective role, via the amended theorem. -/
theorem effective_role_amended_iff_witness :
    getEffectiveRole ⟨true, some "root@x.edu".toList⟩ (some "STAFF")
      (some "Root@X.EDU ".toList) = some "SUDO" := by
  refine (effective_role_amended_iff ⟨true, some "root@x.edu".toList⟩
      (some "STAFF") (some "Root@X.EDU ".toList) (by decide)).1.mpr ?_
  exact ⟨rfl, "root@x.edu".toList, "Root@X.EDU ".toList, rfl, rfl,
    by decide, by decide, by decide⟩

/-- C4 counterexample: it is not the case that every sign-in ending in the
verified-no-profile state emits no LOGIN audit event — the concrete sign-in
whose credential verification succeeds but whose profile lookup finds no
row ends in verified-no-profile, and signIn has already emitted the LOGIN
event. -/
theorem login_event_emitted_despite_no_profile :
    ¬ (∀ (r : AuthResult) (p : Option UserRow),
        stateAfterSignIn r p = SessionState.verifiedNoProfile →
          "LOGIN" ∉ signInEmittedEvents r) := by
  intro h
  exact h AuthResult.ok none rfl (by decide)

/-- C4 amended: signIn emits the LOGIN audit event exactly when external
credential verification succeeds, before and independently of profile
resolution; in particular the sign-in that ends verified-no-profile does
emit it. -/
theorem login_event_tracks_credential_verification :
    ∀ r : AuthResult,
      ("LOGIN" ∈ signInEmittedEvents r ↔ r = AuthResult.ok)
      ∧ stateAfterSignIn AuthResult.ok none = SessionState.verifiedNoProfile := by
  intro r
  refine ⟨?_, rfl⟩
  cases r <;> simp [signInEmittedEvents]

/-- C5: a sign-in whose verification succeeds but whose profile lookup
returns nothing shows the dedicated profile-not-found message, which is a
different string from the credential-rejected fallback; a rejected
credential surfaces its own inline message (the auth error text, or the
fixed fallback when that text is empty) and leaves the session anonymous:
no session, no navigation, loginAttempted still false. -/
theorem profile_not_found_distinct_error (f m : String) (p : Option UserRow) :
    (loginStep f (loginStep f loginInit (LoginEvent.submit AuthResult.ok))
        (LoginEvent.profileResolved none)).error = profileNotFoundMsg
    ∧ profileNotFoundMsg ≠ credentialFallbackMsg
    ∧ (loginStep f loginInit (LoginEvent.submit (AuthResult.failed m))).error
        = (if m = "" then credentialFallbackMsg else m)
    ∧ (loginStep f loginInit (LoginEvent.submit (AuthResult.failed m))).sessionPresent = false
    ∧ (loginStep f loginInit (LoginEvent.submit (AuthResult.failed m))).navigatedTo = none
    ∧ (loginStep f loginInit (LoginEvent.submit (AuthResult.failed m))).loginAttempted = false
    ∧ stateAfterSignIn (AuthResult.failed m) p = SessionState.anonymous := by
  exact ⟨rfl, by decide, rfl, rfl, rfl, rfl, rfl⟩

/-- Firing an already-cancelled timer any number of times leaves the login
state unchanged: clearTimeout prevents the callback from ever running. -/
theorem fireTimer_of_inactive (f : String) (n : Nat) (s : LoginState)
    (h : s.timerActive = false) : fireTimer f n s = s := by
  induction n with
  | zero => rfl
  | succ k ih =>
    show fireTimer f k (loginStep f s LoginEvent.timerFire) = s
    have hstep : loginStep f s LoginEvent.timerFire = s := by
      simp [loginStep, h]
    rw [hstep]
    exact ih

/-- C6: when the sign-in flow reaches the successful terminal state (the
profile resolves while loginAttempted holds) before the bounded wait
expires, the pending 10-second timer is cancelled, and however often the
clock then advances past the original deadline, the timeout error message
is never observed. -/
theorem timer_cancelled_on_success_no_timeout (f r : String) (n : Nat) :
    (loginStep f (loginStep f loginInit (LoginEvent.submit AuthResult.ok))
        (LoginEvent.profileResolved (some r))).timerActive = false
    ∧ (fireTimer f n (loginStep f (loginStep f loginInit (LoginEvent.submit AuthResult.ok))
        (LoginEvent.profileResolved (some r)))).error ≠ timeoutMsg := by
  refine ⟨rfl, ?_⟩
  rw [fireTimer_of_inactive f n _ rfl]
  show ("" : String) ≠ timeoutMsg
  decide

/-- C7 counterexample: the legacy ProtectedRoute guard does not implement
the ADMIN-acts-as-any rule — an Authenticated ADMIN requesting a route
whose required roles are STAFF and STUDENT is redirected to the fallback
with the access-denied signal instead of being admitted. -/
theorem protected_route_denies_admin_on_staff_route :
    protectedRoute (some ["STAFF", "STUDENT"]) false true (some "ADMIN")
      = GuardDecision.redirectFallback "/dashboard" true
    ∧ GuardDecision.redirectFallback "/dashboard" true ≠ GuardDecision.render := by
  decide

/-- C7 amended: for every RBACGuard decision on an Authenticated session
with role-based-access-v2 enforcement enabled, ADMIN is admitted whenever
the route's required roles include any of STAFF, STUDENT or ADMIN, and a
session whose effective role is neither ADMIN nor SUDO and is not in the
required set is redirected to the fallback path with the access-denied
signal. -/
theorem rbac_guard_admin_hierarchy_and_denial (allowed : List String) (fb : String) :
    (allowed.any (fun x => x = "STAFF" || x = "STUDENT" || x = "ADMIN") = true →
      rbacGuard allowed fb false true (some "ADMIN") true = GuardDecision.render)
    ∧ (∀ role : Option String, role ≠ some "ADMIN" → role ≠ some "SUDO" →
        (∀ r, role = some r → allowed.contains r = false) →
        rbacGuard allowed fb false true role true
          = GuardDecision.redirectFallback fb true) := by
  constructor
  · intro h
    cases hc : allowed.contains "ADMIN" <;> simp [rbacGuard, hc, h]
  · intro role h1 h2 h3
    cases role with
    | none => simp [rbacGuard]
    | some r =>
      have hr1 : r ≠ "ADMIN" := fun h => h1 (by rw [h])
      have hr2 : r ≠ "SUDO" := fun h => h2 (by rw [h])
      have hc : allowed.contains r = false := h3 r rfl
      simp [rbacGuard, hr1, hr2]
      simpa using hc

/-- C7 witness: Scenario E under RBACGuard with enforcement on — ADMIN is
admitted to a route requiring STAFF or STUDENT, and STAFF is redirected
from a route requiring ADMIN. -/
theorem rbac_guard_admin_hierarchy_and_denial_witness :
    rbacGuard ["STAFF", "STUDENT"] "/dashboard" false true (some "ADMIN") true
      = GuardDecision.render
    ∧ rbacGuard ["ADMIN"] "/dashboard" false true (some "STAFF") true
      = GuardDecision.redirectFallback "/dashboard" true := by
  constructor
  · exact (rbac_guard_admin_hierarchy_and_denial ["STAFF", "STUDENT"] "/dashboard").1
      (by decide)
  · refine (rbac_guard_admin_hierarchy_and_denial ["ADMIN"] "/dashboard").2
      (some "STAFF") (by decide) (by decide) ?_
    intro r hr
    obtain rfl : r = "STAFF" := (Option.some.inj hr).symm
    decide

/-- C10: every feature flag of the registry is true exactly when its
environment value is the exact string "true" (hence false by default), and
when the role-based-access-v2 value is anything else, RBACGuard renders any
authenticated session regardless of its role and of the route's
allowedRoles. -/
theorem rbac_guard_open_when_flag_disabled
    (env : EnvMap) (allowed : List String) (fb : String) (role : Option String) :
    ((FEATURE_FLAGS env).MAGIC_LINK = true ↔
        env "VITE_ENABLE_MAGIC_LINK_AUTH" = some "true")
    ∧ ((FEATURE_FLAGS env).STAFF_DOMAIN_ENFORCEMENT = true ↔
        env "VITE_ENABLE_STAFF_DOMAIN_ENFORCEMENT" = some "true")
    ∧ ((FEATURE_FLAGS env).RBAC_V2 = true ↔
        env "VITE_ENABLE_ROLE_BASED_ACCESS_V2" = some "true")
    ∧ ((FEATURE_FLAGS env).SUDO_ADMIN = true ↔
        env "VITE_ENABLE_SUDO_ADMIN" = some "true")
    ∧ (env "VITE_ENABLE_ROLE_BASED_ACCESS_V2" ≠ some "true" →
        rbacGuard allowed fb false true role ((FEATURE_FLAGS env).RBAC_V2)
          = GuardDecision.render) := by
  refine ⟨by simp [FEATURE_FLAGS, readEnvFlag], by simp [FEATURE_FLAGS, readEnvFlag],
    by simp [FEATURE_FLAGS, readEnvFlag], by simp [FEATURE_FLAGS, readEnvFlag], ?_⟩
  intro h
  have hflag : (FEATURE_FLAGS env).RBAC_V2 = false := by
    simp [FEATURE_FLAGS, readEnvFlag, h]
  rw [hflag]
  rfl

/-- C10 witness: with an empty environment (every variable unset), the flag
defaults to false and RBACGuard admits an authenticated STUDENT to a route
whose allowedRoles are ADMIN only. -/
theorem rbac_guard_open_when_flag_disabled_witness :
    rbacGuard ["ADMIN"] "/dashboard" false true (some "STUDENT")
      ((FEATURE_FLAGS (fun _ => none)).RBAC_V2) = GuardDecision.render :=
  (rbac_guard_open_when_flag_disabled (fun _ => none) ["ADMIN"] "/dashboard"
    (some "STUDENT")).2.2.2.2 (by decide)

/-- Unfolding of the EXISTS-subquery pattern: the policy condition holds
exactly when some row of the users table has the requester's id and
satisfies the predicate. -/
theorem existsUserWith_true_iff (db : List UserRow) (uid : String)
    (p : UserRow → Bool) :
    existsUserWith db uid p = true ↔ ∃ u ∈ db, u.id = uid ∧ p u = true := by
  unfold existsUserWith
  rw [List.any_eq_true]
  constructor
  · rintro ⟨u, hu, hp⟩
    rw [Bool.and_eq_true, decide_eq_true_eq] at hp
    exact ⟨u, hu, hp⟩
  · rintro ⟨u, hu, h1, h2⟩
    exact ⟨u, hu, by rw [Bool.and_eq_true, decide_eq_true_eq]; exact ⟨h1, h2⟩⟩

/-- When every users row with the requester's id has role r, a role test
for a different role x fails for the requester. -/
theorem existsUserWith_role_false (db : List UserRow) (uid r x : String)
    (hrole : ∀ u ∈ db, u.id = uid → u.role = r) (hx : x ≠ r) :
    existsUserWith db uid (fun u => decide (u.role = x)) = false := by
  rw [← Bool.not_eq_true, existsUserWith_true_iff]
  rintro ⟨u, hu, h1, h2⟩
  rw [decide_eq_true_eq] at h2
  exact hx (h2.symm.trans (hrole u hu h1))

/-- C8: for a requester whose users-table role is STAFF or STUDENT (r being
the role of every row carrying the requester's id, and such a row
existing), the row-level policies — including the SUDO policies added by
the v2 migration — grant SELECT on a tutorial exactly when its target_role
equals r, hide every users row other than the requester's own, and deny
INSERT, UPDATE and DELETE on the users table outright. -/
theorem staff_student_rls_policies (db : List UserRow) (uid r : String)
    (hr : r = "STAFF" ∨ r = "STUDENT")
    (hmem : ∃ u ∈ db, u.id = uid)
    (hrole : ∀ u ∈ db, u.id = uid → u.role = r) :
    (∀ t : TutorialRow, tutorialsSelectAllowed db uid t = true ↔ t.target_role = r)
    ∧ (∀ row : UserRow, row.id ≠ uid → usersSelectAllowed db uid row = false)
    ∧ usersInsertAllowed db uid = false
    ∧ usersUpdateAllowed db uid = false
    ∧ (∀ row : UserRow, usersDeleteAllowed db uid row = false) := by
  have hra : "ADMIN" ≠ r := by rcases hr with rfl | rfl <;> decide
  have hrs : "SUDO" ≠ r := by rcases hr with rfl | rfl <;> decide
  have hadmin : existsUserWith db uid (fun u => decide (u.role = "ADMIN")) = false :=
    existsUserWith_role_false db uid r "ADMIN" hrole hra
  have hsudo : existsUserWith db uid (fun u => decide (u.role = "SUDO")) = false :=
    existsUserWith_role_false db uid r "SUDO" hrole hrs
  refine ⟨?_, ?_, ?_, ?_, ?_⟩
  · intro t
    unfold tutorialsSelectAllowed
    rw [hsudo, Bool.or_false]
    rw [existsUserWith_true_iff]
    constructor
    · rintro ⟨u, hu, h1, h2⟩
      rw [Bool.or_eq_true, decide_eq_true_eq, decide_eq_true_eq] at h2
      have hur := hrole u hu h1
      rcases h2 with h2 | h2
      · exact absurd (h2.symm.trans hur) hra
      · exact h2.symm.trans hur
    · intro ht
      obtain ⟨u, hu, h1⟩ := hmem
      refine ⟨u, hu, h1, ?_⟩
      rw [Bool.or_eq_true, decide_eq_true_eq, decide_eq_true_eq]
      exact Or.inr ((hrole u hu h1).trans ht.symm)
  · intro row hrow
    unfold usersSelectAllowed
    rw [hadmin, hsudo]
    simp [hrow]
  · unfold usersInsertAllowed
    rw [hadmin, hsudo]
    rfl
  · unfold usersUpdateAllowed
    rw [hadmin, hsudo]
    rfl
  · intro row
    unfold usersDeleteAllowed
    rw [hadmin, hsudo]
    rfl

/-- C8 witness: a concrete two-row database — the requester is a STAFF
user, and an ADMIN exists under a different id — in which the requester
can read a STAFF-targeted tutorial, cannot read the ADMIN's row, and
cannot insert into the users table. -/
theorem staff_student_rls_policies_witness :
    tutorialsSelectAllowed [⟨"u1", "STAFF"⟩, ⟨"u2", "ADMIN"⟩] "u1" ⟨"STAFF"⟩ = true
    ∧ usersSelectAllowed [⟨"u1", "STAFF"⟩, ⟨"u2", "ADMIN"⟩] "u1" ⟨"u2", "ADMIN"⟩ = false
    ∧ usersInsertAllowed [⟨"u1", "STAFF"⟩, ⟨"u2", "ADMIN"⟩] "u1" = false := by
  have h := staff_student_rls_policies [⟨"u1", "STAFF"⟩, ⟨"u2", "ADMIN"⟩] "u1" "STAFF"
    (Or.inl rfl) ⟨⟨"u1", "STAFF"⟩, by simp, rfl⟩ (by decide)
  exact ⟨(h.1 ⟨"STAFF"⟩).mpr rfl, h.2.1 ⟨"u2", "ADMIN"⟩ (by decide), h.2.2.1⟩

/-- C9 counterexample: logAction has no try/catch, so a thrown exception
from the underlying append propagates to the awaiting caller and changes
the outcome of the audited action, contradicting the claim that a failure
of the append never propagates. -/
theorem log_action_propagates_thrown_exception :
    runAudited 1 (RpcBehavior.throwEx "network failure") ≠ runAudited 1 RpcBehavior.ok
    ∧ (logAction (RpcBehavior.throwEx "network failure")).propagated
        = some "network failure" := by
  refine ⟨?_, rfl⟩
  intro h
  simp [runAudited, logAction] at h

/-- C9 amended: logAuthEvent never propagates any failure of the append;
logAction swallows an error result, logging it locally, so the outcome of
the audited action is identical whether the append succeeds or returns an
error result — only a thrown exception inside logAction escapes. -/
theorem audit_emitters_swallow_error_results :
    ∀ (b : RpcBehavior) (m : String) (a : Nat),
      (logAuthEvent b).propagated = none
      ∧ (logAction (RpcBehavior.errResult m)).propagated = none
      ∧ (logAction (RpcBehavior.errResult m)).localLog ≠ []
      ∧ runAudited a (RpcBehavior.errResult m) = runAudited a RpcBehavior.ok := by
  intro b m a
  refine ⟨?_, rfl, by simp [logAction], rfl⟩
  cases b <;> rfl

end ChresoTut
